import Mathlib

/-!
Shallow embedding of the workout-tracking web application (`src/app.py`).

The relational store is modelled as lists of rows plus auto-increment
counters; each Flask route handler becomes a pure function from the store
(and the submitted form data) to the updated store and a response value.
External collaborators (password hashing primitive, the wtforms `Email`
format validator, the Python `int` builtin) are modelled from the spec's
description of them, as noted on their doc comments.
-/

namespace Trenning

/-- A flashed message with its category, as produced by `flash(msg, category)`. -/
structure Flash where
  message : String
  category : String
deriving DecidableEq, Repr

/-- Row of the `user` table (`class User` in `src/app.py`). -/
structure User where
  id : Nat
  username : String
  email : String
  password_hash : String
deriving DecidableEq, Repr

/-- Row of the `workout` table (`class Workout` in `src/app.py`). -/
structure Workout where
  id : Nat
  user_id : Nat
  date : String
  start_time : String
  duration : String
  notes : String
deriving DecidableEq, Repr

/-- Row of the `exercise` table (`class Exercise` in `src/app.py`). -/
structure Exercise where
  id : Nat
  workout_id : Nat
  body_part : String
  name : String
  sets : Int
  reps : Int
deriving DecidableEq, Repr

/-- The relational store: three tables plus auto-increment primary-key
counters. -/
structure DB where
  users : List User
  workouts : List Workout
  exercises : List Exercise
  nextUserId : Nat
  nextWorkoutId : Nat
  nextExerciseId : Nat
deriving DecidableEq, Repr

/-- The empty store. -/
def DB.empty : DB := ⟨[], [], [], 1, 1, 1⟩

/-- Responses a handler can produce: redirects (carrying a flashed message
when one was set just before), rendered templates with the data passed to
them, and the 404 produced by `get_or_404`. -/
inductive Response where
  | redirect (target : String) (msg : Option Flash)
  | renderIndex
  | renderRegister
  | renderLogin (msg : Option Flash)
  | renderDashboard (uid : Nat) (workouts : List Workout)
  | renderAddWorkout
  | renderHistory (items : List (Workout × List Exercise))
  | renderWorkout (w : Workout) (exercises : List Exercise)
  | notFound
deriving DecidableEq, Repr

/-- Modelled from the spec: the external password hashing primitive
(`werkzeug.security.generate_password_hash`), described as a one-way
hash; modelled as an injective tagging of the plaintext so that the
hash/verify pair is faithful to "hash + verify for credentials". -/
def generate_password_hash (password : String) : String :=
  "pbkdf2:" ++ password

/-- Modelled from the spec: the external verifier
(`werkzeug.security.check_password_hash`): verification succeeds exactly
when the stored hash is the hash of the offered plaintext. -/
def check_password_hash (hash password : String) : Bool :=
  hash == generate_password_hash password

/-- `User.set_password` from `src/app.py`. -/
def User.set_password (u : User) (password : String) : User :=
  { u with password_hash := generate_password_hash password }

/-- `User.check_password` from `src/app.py`. -/
def User.check_password (u : User) (password : String) : Bool :=
  check_password_hash u.password_hash password

/-- Python's `str.strip()`: drop leading and trailing whitespace. -/
def pyStrip (s : String) : String :=
  ⟨((s.data.dropWhile Char.isWhitespace).reverse.dropWhile Char.isWhitespace).reverse⟩

/-- Truthiness of `s.strip()` negated: `true` exactly when the string is
empty or whitespace-only. -/
def blank (s : String) : Bool :=
  (pyStrip s).data.isEmpty

/-- The wtforms `DataRequired` validator: fails on a missing/empty value
and on a whitespace-only string. -/
def dataRequired (s : String) : Bool :=
  !blank s

/-- Modelled from the spec: the external wtforms `Email` format validator
("declarative field-presence/format checks"); modelled as requiring an
`@` in the address. -/
def emailOk (s : String) : Bool :=
  s.data.contains '@'

/-- Fields of `RegisterForm` in `src/app.py`. -/
structure RegisterForm where
  username : String
  email : String
  password : String
  password2 : String
deriving DecidableEq, Repr

/-- `RegisterForm` validation: `DataRequired` on all four fields, `Email`
on the email, `EqualTo("password2")` on the password. -/
def registerFormValidates (f : RegisterForm) : Bool :=
  dataRequired f.username && (dataRequired f.email && emailOk f.email) &&
    (dataRequired f.password && (f.password == f.password2)) &&
    dataRequired f.password2

/-- Fields of `LoginForm` in `src/app.py`. -/
structure LoginForm where
  email : String
  password : String
deriving DecidableEq, Repr

/-- `LoginForm` validation: `DataRequired` on both fields, `Email` on the
email. -/
def loginFormValidates (f : LoginForm) : Bool :=
  (dataRequired f.email && emailOk f.email) && dataRequired f.password

/-- Fields of `WorkoutForm` in `src/app.py` (notes is optional). -/
structure WorkoutForm where
  date : String
  start_time : String
  duration : String
  notes : String
deriving DecidableEq, Repr

/-- `WorkoutForm` validation: `DataRequired` on date, start time and
duration; notes has no validator. -/
def workoutFormValidates (f : WorkoutForm) : Bool :=
  dataRequired f.date && dataRequired f.start_time && dataRequired f.duration

/-- The flashed message for a duplicate email at registration. -/
def emailTakenFlash : Flash :=
  ⟨"Ten adres e-mail jest już zajęty. Wybierz inny.", "danger"⟩

/-- The flashed message for a duplicate username at registration. -/
def usernameTakenFlash : Flash :=
  ⟨"Ta nazwa użytkownika jest już zajęta. Wybierz inną.", "danger"⟩

/-- The `register` handler (`src/app.py` lines 93-113): on a validated
submission, check email uniqueness, then username uniqueness (first match
wins), else hash the password, insert the `User` row, commit, redirect to
login. -/
def register (db : DB) (f : RegisterForm) : DB × Response :=
  if registerFormValidates f then
    match db.users.find? (fun u => u.email == f.email) with
    | some _ => (db, .redirect "register" (some emailTakenFlash))
    | none =>
      match db.users.find? (fun u => u.username == f.username) with
      | some _ => (db, .redirect "register" (some usernameTakenFlash))
      | none =>
        let u : User := ⟨db.nextUserId, f.username, f.email,
          generate_password_hash f.password⟩
        ({ db with users := db.users ++ [u], nextUserId := db.nextUserId + 1 },
          .redirect "login" (some ⟨"Konto utworzone! Możesz się zalogować.", "success"⟩))
  else (db, .renderRegister)

/-- The generic failure flash of the `login` handler. -/
def invalidCredentialsFlash : Flash :=
  ⟨"Błędny email lub hasło", "danger"⟩

/-- The `login` handler (`src/app.py` lines 116-125): look the user up by
email; if found and the password verifies, establish the session identity
(first component `some id`) and redirect to the dashboard; otherwise both
failure causes fall through to the same flash and re-render of the login
page, with no identity established. -/
def login (db : DB) (f : LoginForm) : Option Nat × Response :=
  if loginFormValidates f then
    match db.users.find? (fun u => u.email == f.email) with
    | some user =>
      if user.check_password f.password then
        (some user.id, .redirect "dashboard" none)
      else
        (none, .renderLogin (some invalidCredentialsFlash))
    | none => (none, .renderLogin (some invalidCredentialsFlash))
  else (none, .renderLogin none)

/-- The `dashboard` handler (`src/app.py` lines 135-139):
`Workout.query.filter_by(user_id=current_user.id).all()`. -/
def dashboard (db : DB) (uid : Nat) : Response :=
  .renderDashboard uid (db.workouts.filter (fun w => w.user_id == uid))

/-- The `workout_history` handler (`src/app.py` lines 180-188): the current
user's workouts, each paired with a separate per-workout exercise query. -/
def workout_history (db : DB) (uid : Nat) : Response :=
  .renderHistory ((db.workouts.filter (fun w => w.user_id == uid)).map
    (fun w => (w, db.exercises.filter (fun e => e.workout_id == w.id))))

/-- The `view_workout` handler (`src/app.py` lines 191-196):
`get_or_404(workout_id)` then the workout's exercises; the current user is
never consulted. -/
def view_workout (db : DB) (workout_id : Nat) : Response :=
  match db.workouts.find? (fun w => w.id == workout_id) with
  | some w => .renderWorkout w (db.exercises.filter (fun e => e.workout_id == w.id))
  | none => .notFound

/-- Decimal digits to the number they denote. -/
def digitsToNat (l : List Char) : Nat :=
  l.foldl (fun n c => n * 10 + (c.toNat - 48)) 0

/-- Modelled from the spec: the Python `int` builtin applied to a form
string ("coerce sets/reps to integers"); accepts surrounding whitespace,
an optional sign and a non-empty run of decimal digits, and is `none`
("a malformed numeric value") otherwise. -/
def pyInt? (s : String) : Option Int :=
  let cs := (pyStrip s).data
  let p : Int × List Char :=
    match cs with
    | '-' :: rest => (-1, rest)
    | '+' :: rest => (1, rest)
    | _ => (1, cs)
  if p.2 ≠ [] && p.2.all Char.isDigit then some (p.1 * digitsToNat p.2)
  else none

/-- The exercise loop of `add_workout` (`src/app.py` lines 162-171), over
the enumerated `exercise_name` list: a row whose stripped name is empty is
skipped; otherwise the body part, sets and reps lists are indexed at the
same position (an out-of-range index is Python's `IndexError`) and sets
and reps are coerced with `int` (a malformed value is `ValueError`); any
such uncaught exception is `.error ()`. `eid` is the auto-increment id
the next staged `Exercise` row will receive. -/
def buildExercises (wid : Nat) (bodyParts setsL repsL : List String) :
    List (Nat × String) → Nat → Except Unit (List Exercise)
  | [], _ => .ok []
  | (i, name) :: rest, eid =>
    if blank name then
      buildExercises wid bodyParts setsL repsL rest eid
    else
      match bodyParts[i]? with
      | none => .error ()
      | some bp =>
        match (setsL[i]?).bind pyInt? with
        | none => .error ()
        | some sv =>
          match (repsL[i]?).bind pyInt? with
          | none => .error ()
          | some rv =>
            (buildExercises wid bodyParts setsL repsL rest (eid + 1)).map
              (fun exs => ⟨eid, wid, bp, name, sv, rv⟩ :: exs)

/-- The `Workout` row `add_workout` inserts and commits in its first
phase, with the id the auto-increment counter assigns it. -/
def newWorkout (db : DB) (uid : Nat) (f : WorkoutForm) : Workout :=
  ⟨db.nextWorkoutId, uid, f.date, f.start_time, f.duration, f.notes⟩

/-- The store as it stands after the first commit of `add_workout`: the
new `Workout` row is persisted, no exercise is. -/
def DB.afterWorkoutCommit (db : DB) (uid : Nat) (f : WorkoutForm) : DB :=
  { db with workouts := db.workouts ++ [newWorkout db uid f],
            nextWorkoutId := db.nextWorkoutId + 1 }

/-- The `add_workout` handler (`src/app.py` lines 142-177), for the
authenticated user `uid`. Two-phase write: on a validated form, insert
the `Workout` row and commit at once; then run the exercise loop over the
parallel form lists and commit the surviving rows. The second component
is `none` when the loop raises an uncaught exception, in which case only
the first commit's state persists. -/
def add_workout (db : DB) (uid : Nat) (f : WorkoutForm)
    (names bodyParts setsL repsL : List String) : DB × Option Response :=
  if workoutFormValidates f then
    let db1 := db.afterWorkoutCommit uid f
    match buildExercises (newWorkout db uid f).id bodyParts setsL repsL
        names.enum db1.nextExerciseId with
    | .error _ => (db1, none)
    | .ok exs =>
      ({ db1 with exercises := db1.exercises ++ exs,
                  nextExerciseId := db1.nextExerciseId + exs.length },
        some (.redirect "dashboard" (some ⟨"Trening dodany!", "success"⟩)))
  else (db, some .renderAddWorkout)

/-- An incoming HTTP request, with the submitted form data where the
route takes any. -/
inductive Request where
  | index
  | register (f : RegisterForm)
  | login (f : LoginForm)
  | logout
  | dashboard
  | addWorkout (f : WorkoutForm) (names bodyParts setsL repsL : List String)
  | workoutHistory
  | viewWorkout (id : Nat)
deriving DecidableEq, Repr

/-- Routes carrying `@login_required`. -/
def Request.isProtected : Request → Bool
  | .logout | .dashboard | .addWorkout _ _ _ _ _ | .workoutHistory
  | .viewWorkout _ => true
  | _ => false

/-- Outcome of handling one request: the persisted store, the session
identity afterwards, and the response (`none` when an uncaught exception
aborted the request). -/
structure ReqResult where
  db : DB
  session : Option Nat
  resp : Option Response
deriving DecidableEq, Repr

/-- Flask-Login's unauthorized handler with `login_view = "login"`:
redirect to the login page. -/
def redirectToLogin : Response :=
  .redirect "login" none

/-- The application's request dispatch: `@login_required` routes redirect
to login when no session identity exists, without running the handler
body; otherwise the matching route handler from `src/app.py` runs. -/
def handleRequest (db : DB) (session : Option Nat) : Request → ReqResult
  | .index => ⟨db, session, some .renderIndex⟩
  | .register f =>
    let r := register db f
    ⟨r.1, session, some r.2⟩
  | .login f =>
    let r := login db f
    ⟨db, match r.1 with | some uid => some uid | none => session, some r.2⟩
  | .logout =>
    match session with
    | none => ⟨db, none, some redirectToLogin⟩
    | some _ => ⟨db, none, some (.redirect "index" none)⟩
  | .dashboard =>
    match session with
    | none => ⟨db, none, some redirectToLogin⟩
    | some uid => ⟨db, some uid, some (dashboard db uid)⟩
  | .addWorkout f names bodyParts setsL repsL =>
    match session with
    | none => ⟨db, none, some redirectToLogin⟩
    | some uid =>
      let r := add_workout db uid f names bodyParts setsL repsL
      ⟨r.1, some uid, r.2⟩
  | .workoutHistory =>
    match session with
    | none => ⟨db, none, some redirectToLogin⟩
    | some uid => ⟨db, some uid, some (workout_history db uid)⟩
  | .viewWorkout wid =>
    match session with
    | none => ⟨db, none, some redirectToLogin⟩
    | some uid => ⟨db, some uid, some (view_workout db wid)⟩

/-! ### Helper lemmas -/

/-- In a table whose ids are pairwise distinct, the primary-key lookup of
a row that is present finds exactly that row. -/
theorem find?_id_of_mem {l : List Workout} {w : Workout}
    (hnd : (l.map Workout.id).Nodup) (hw : w ∈ l) :
    l.find? (fun x => x.id == w.id) = some w := by
  induction l with
  | nil => cases hw
  | cons a tl ih =>
    rw [List.map_cons, List.nodup_cons] at hnd
    rcases List.mem_cons.mp hw with h | h
    · subst h
      exact List.find?_cons_of_pos _ (by simp)
    · have hne : ¬(a.id == w.id) = true := by
        simp only [beq_iff_eq]
        intro he
        exact hnd.1 (he ▸ List.mem_map_of_mem Workout.id h)
      rw [List.find?_cons_of_neg (p := fun x => x.id == w.id) tl hne]
      exact ih hnd.2 h

/-- When the exercise loop finishes without raising, the staged rows are,
in order, one per non-blank name, and all reference the given workout. -/
theorem buildExercises_rows_of_ok {wid : Nat} {bodyParts setsL repsL : List String}
    (l : List (Nat × String)) :
    ∀ (eid : Nat) (exs : List Exercise),
      buildExercises wid bodyParts setsL repsL l eid = .ok exs →
      (exs.map Exercise.name = (l.filter (fun p => !blank p.2)).map Prod.snd ∧
        (∀ e ∈ exs, e.workout_id = wid)) ∧
      ∀ p ∈ l, blank p.2 = false →
        (bodyParts[p.1]?).isSome = true ∧
        ((setsL[p.1]?).bind pyInt?).isSome = true ∧
        ((repsL[p.1]?).bind pyInt?).isSome = true := by
  induction l with
  | nil =>
    intro eid exs h
    simp only [buildExercises] at h
    cases h
    simp
  | cons p rest ih =>
    obtain ⟨i, name⟩ := p
    intro eid exs h
    simp only [buildExercises] at h
    by_cases hb : blank name = true
    · rw [if_pos hb] at h
      have hrec := ih eid exs h
      refine ⟨⟨?_, hrec.1.2⟩, ?_⟩
      · have hf : (!blank name) = false := by simp [hb]
        simpa [List.filter_cons, hf] using hrec.1.1
      · intro p hp hpnb
        rcases List.mem_cons.mp hp with h1 | h1
        · cases h1
          simp [hb] at hpnb
        · exact hrec.2 p h1 hpnb
    · rw [if_neg hb] at h
      rcases h1 : bodyParts[i]? with _ | bp <;> rw [h1] at h
      · cases h
      rcases h2 : (setsL[i]?).bind pyInt? with _ | sv <;> rw [h2] at h
      · cases h
      rcases h3 : (repsL[i]?).bind pyInt? with _ | rv <;> rw [h3] at h
      · cases h
      rcases h4 : buildExercises wid bodyParts setsL repsL rest (eid + 1)
          with e | exs1 <;> rw [h4] at h
      · cases h
      have hrec := ih (eid + 1) exs1 h4
      simp only [Except.map] at h
      cases h
      have hbf : blank name = false := eq_false_of_ne_true hb
      refine ⟨⟨?_, ?_⟩, ?_⟩
      · have ht : (!blank name) = true := by simp [hbf]
        simpa [List.filter_cons, ht] using hrec.1.1
      · intro e he
        rcases List.mem_cons.mp he with h5 | h5
        · cases h5; rfl
        · exact hrec.1.2 e h5
      · intro p hp hpnb
        rcases List.mem_cons.mp hp with h5 | h5
        · cases h5
          exact ⟨by simp [h1], by simp [h2], by simp [h3]⟩
        · exact hrec.2 p h5 hpnb

/-- When every non-blank row's parallel fields are present and parse, the
exercise loop finishes without raising. -/
theorem buildExercises_ok_of_rows (wid : Nat) {bodyParts setsL repsL : List String}
    (l : List (Nat × String)) :
    ∀ (eid : Nat),
      (∀ p ∈ l, blank p.2 = false →
        (bodyParts[p.1]?).isSome = true ∧
        ((setsL[p.1]?).bind pyInt?).isSome = true ∧
        ((repsL[p.1]?).bind pyInt?).isSome = true) →
      ∃ exs, buildExercises wid bodyParts setsL repsL l eid = .ok exs := by
  induction l with
  | nil => exact fun eid _ => ⟨[], rfl⟩
  | cons p rest ih =>
    obtain ⟨i, name⟩ := p
    intro eid H
    by_cases hb : blank name = true
    · simpa only [buildExercises, if_pos hb] using
        ih eid (fun p hp => H p (List.mem_cons_of_mem _ hp))
    · obtain ⟨hbp, hsv, hrv⟩ :=
        H (i, name) (List.mem_cons_self _ _) (eq_false_of_ne_true hb)
      obtain ⟨bp, hbp⟩ := Option.isSome_iff_exists.mp hbp
      obtain ⟨sv, hsv⟩ := Option.isSome_iff_exists.mp hsv
      obtain ⟨rv, hrv⟩ := Option.isSome_iff_exists.mp hrv
      obtain ⟨exs, hexs⟩ := ih (eid + 1) (fun p hp => H p (List.mem_cons_of_mem _ hp))
      refine ⟨⟨eid, wid, bp, name, sv, rv⟩ :: exs, ?_⟩
      simp only [buildExercises, if_neg hb, hbp, hsv, hrv, hexs, Except.map]

/-- A single non-blank row whose parallel fields are missing or fail to
parse makes the whole exercise loop raise. -/
theorem buildExercises_error_of_badRow (wid : Nat) {bodyParts setsL repsL : List String}
    {l : List (Nat × String)} {i : Nat} {name : String}
    (hmem : (i, name) ∈ l) (hnb : blank name = false)
    (hbad : (bodyParts[i]?).isSome = false ∨
      ((setsL[i]?).bind pyInt?).isSome = false ∨
      ((repsL[i]?).bind pyInt?).isSome = false) :
    ∀ eid, buildExercises wid bodyParts setsL repsL l eid = .error () := by
  intro eid
  rcases hres : buildExercises wid bodyParts setsL repsL l eid with e | exs
  · cases e; rfl
  · have hrow := (buildExercises_rows_of_ok l eid exs hres).2 (i, name) hmem hnb
    rcases hbad with h | h | h <;> simp [h] at hrow

/-- Filtering the enumerated list on the payload and dropping the indices
is filtering the plain list. -/
theorem enumFrom_filter_map_snd (q : String → Bool) :
    ∀ (l : List String) (k : Nat),
      ((List.enumFrom k l).filter (fun p => q p.2)).map Prod.snd = l.filter q
  | [], _ => by simp
  | a :: l, k => by
    rw [List.enumFrom_cons]
    by_cases hq : q a
    · simp [List.filter_cons, hq, enumFrom_filter_map_snd q l (k + 1)]
    · simp [List.filter_cons, hq, enumFrom_filter_map_snd q l (k + 1)]

/-- `enumFrom_filter_map_snd` specialised to `List.enum`. -/
theorem enum_filter_map_snd (q : String → Bool) (l : List String) :
    ((l.enum).filter (fun p => q p.2)).map Prod.snd = l.filter q := by
  rw [List.enum_eq_enumFrom]
  exact enumFrom_filter_map_snd q l 0

/-- A validated registration whose email is already stored is rejected on
the email check, before anything else is looked at. -/
theorem register_email_hit (db : DB) (f : RegisterForm)
    (hv : registerFormValidates f = true)
    (u : User) (hu : u ∈ db.users) (he : u.email = f.email) :
    register db f = (db, .redirect "register" (some emailTakenFlash)) := by
  rcases hfind : db.users.find? (fun v => v.email == f.email) with _ | v
  · exact absurd (List.find?_eq_none.mp hfind u hu) (by simp [he])
  · simp [register, hv, hfind]

/-! ### Sample rows used to instantiate the theorems below -/

/-- A stored user. -/
def sampleUserA : User := ⟨1, "ala", "ala@example.com", generate_password_hash "tajne1"⟩

/-- A second stored user, the owner of the sample workout. -/
def sampleUserB : User := ⟨2, "bob", "bob@example.com", generate_password_hash "tajne2"⟩

/-- A workout owned by `sampleUserB`. -/
def sampleWorkout : Workout := ⟨1, 2, "2024-05-01", "10:00", "60", ""⟩

/-- An exercise of `sampleWorkout`. -/
def sampleExercise : Exercise := ⟨1, 1, "klatka", "Wyciskanie", 3, 10⟩

/-- A small populated store. -/
def sampleDB : DB :=
  ⟨[sampleUserA, sampleUserB], [sampleWorkout], [sampleExercise], 3, 2, 2⟩

/-! ### The claims -/

/-- **C1**: for every authenticated user and every workout id present in
the store, `view_workout` renders that workout and its exercises with no
check that the workout's `user_id` equals the current user's id (the
conclusion does not depend on any relation between `uid` and
`w.user_id`); for every id not present, it responds not-found. -/
theorem view_workout_no_ownership_check (db : DB) (uid wid : Nat)
    (hnd : (db.workouts.map Workout.id).Nodup) :
    (∀ w ∈ db.workouts, w.id = wid →
      handleRequest db (some uid) (.viewWorkout wid) =
        ⟨db, some uid, some (.renderWorkout w
          (db.exercises.filter (fun e => e.workout_id == w.id)))⟩) ∧
    ((∀ w ∈ db.workouts, w.id ≠ wid) →
      handleRequest db (some uid) (.viewWorkout wid) =
        ⟨db, some uid, some .notFound⟩) := by
  constructor
  · intro w hw hid
    subst hid
    simp only [handleRequest, view_workout, find?_id_of_mem hnd hw]
  · intro hno
    have hfind : db.workouts.find? (fun w => w.id == wid) = none :=
      List.find?_eq_none.mpr (fun w hw => by simpa using hno w hw)
    simp only [handleRequest, view_workout, hfind]

/-- Witness for **C1**: user 1 views workout 1, owned by user 2, and gets
its data and exercises; workout 99 does not exist and yields not-found. -/
theorem view_workout_no_ownership_check_witness :
    handleRequest sampleDB (some 1) (.viewWorkout 1) =
      ⟨sampleDB, some 1, some (.renderWorkout sampleWorkout
        (sampleDB.exercises.filter (fun e => e.workout_id == sampleWorkout.id)))⟩ ∧
    handleRequest sampleDB (some 1) (.viewWorkout 99) =
      ⟨sampleDB, some 1, some .notFound⟩ :=
  ⟨(view_workout_no_ownership_check sampleDB 1 1 (by decide)).1 sampleWorkout
      (by decide) rfl,
   (view_workout_no_ownership_check sampleDB 1 99 (by decide)).2 (by decide)⟩

/-- **C3**: a validated registration whose email equals the email of a
stored user is rejected with a user-visible message and the store is
returned unchanged — no `User` row is created. -/
theorem register_duplicate_email_rejected (db : DB) (f : RegisterForm)
    (hv : registerFormValidates f = true)
    (u : User) (hu : u ∈ db.users) (he : u.email = f.email) :
    register db f = (db, .redirect "register" (some emailTakenFlash)) :=
  register_email_hit db f hv u hu he

/-- Witness for **C3**: registering a new username under the stored email
`ala@example.com` is rejected and the store is unchanged. -/
theorem register_duplicate_email_rejected_witness :
    register sampleDB ⟨"celina", "ala@example.com", "haslo", "haslo"⟩ =
      (sampleDB, .redirect "register" (some emailTakenFlash)) :=
  register_duplicate_email_rejected sampleDB
    ⟨"celina", "ala@example.com", "haslo", "haslo"⟩ (by decide)
    sampleUserA (by decide) (by decide)

/-- **C4**: the registration handler checks email uniqueness before
username uniqueness: when both are taken the duplicate-email rejection is
returned (first match wins), and the duplicate-username rejection can only
arise when no stored user has the submitted email. -/
theorem register_email_checked_before_username (db : DB) (f : RegisterForm)
    (hv : registerFormValidates f = true) :
    ((∃ u ∈ db.users, u.email = f.email) →
      (∃ v ∈ db.users, v.username = f.username) →
      (register db f).2 = .redirect "register" (some emailTakenFlash)) ∧
    ((register db f).2 = .redirect "register" (some usernameTakenFlash) →
      ∀ u ∈ db.users, u.email ≠ f.email) := by
  constructor
  · rintro ⟨u, hu, he⟩ _
    rw [register_email_hit db f hv u hu he]
  · intro hresp u hu he
    rw [register_email_hit db f hv u hu he] at hresp
    simp [emailTakenFlash, usernameTakenFlash] at hresp

/-- Witness for **C4**: both `ala`'s email and username are taken; the
response is the duplicate-email rejection, not the username one. -/
theorem register_email_checked_before_username_witness :
    (register sampleDB ⟨"ala", "ala@example.com", "haslo", "haslo"⟩).2 =
      .redirect "register" (some emailTakenFlash) :=
  (register_email_checked_before_username sampleDB
      ⟨"ala", "ala@example.com", "haslo", "haslo"⟩ (by decide)).1
    ⟨sampleUserA, by decide, by decide⟩ ⟨sampleUserA, by decide, by decide⟩

/-- **C5**: the two login failure causes — no user with the submitted
email, and a stored user whose password hash does not verify — produce
the identical generic response, and neither establishes a session
identity (first component `none` in both runs). -/
theorem login_failure_indistinguishable (db₁ db₂ : DB) (f₁ f₂ : LoginForm)
    (hv₁ : loginFormValidates f₁ = true) (hv₂ : loginFormValidates f₂ = true)
    (h₁ : db₁.users.find? (fun u => u.email == f₁.email) = none)
    (u : User) (h₂ : db₂.users.find? (fun u => u.email == f₂.email) = some u)
    (hp : u.check_password f₂.password = false) :
    login db₁ f₁ = (none, .renderLogin (some invalidCredentialsFlash)) ∧
    login db₂ f₂ = (none, .renderLogin (some invalidCredentialsFlash)) ∧
    (login db₁ f₁).2 = (login db₂ f₂).2 := by
  have e₁ : login db₁ f₁ = (none, .renderLogin (some invalidCredentialsFlash)) := by
    simp [login, hv₁, h₁]
  have e₂ : login db₂ f₂ = (none, .renderLogin (some invalidCredentialsFlash)) := by
    simp [login, hv₂, h₂, hp]
  exact ⟨e₁, e₂, by rw [e₁, e₂]⟩

/-- Witness for **C5**: an unknown email and a wrong password for `ala`
yield the same response and no session identity. -/
theorem login_failure_indistinguishable_witness :
    login sampleDB ⟨"nikt@example.com", "cokolwiek"⟩ =
      (none, .renderLogin (some invalidCredentialsFlash)) ∧
    login sampleDB ⟨"ala@example.com", "zlehaslo"⟩ =
      (none, .renderLogin (some invalidCredentialsFlash)) ∧
    (login sampleDB ⟨"nikt@example.com", "cokolwiek"⟩).2 =
      (login sampleDB ⟨"ala@example.com", "zlehaslo"⟩).2 :=
  login_failure_indistinguishable sampleDB sampleDB
    ⟨"nikt@example.com", "cokolwiek"⟩ ⟨"ala@example.com", "zlehaslo"⟩
    (by decide) (by decide) (by decide) sampleUserA (by decide) (by decide)

/-- **C7**: a password stored via `set_password` verifies under
`check_password` with the identical plaintext, and fails verification
with any distinct plaintext. -/
theorem set_check_password_roundtrip (u : User) (p q : String) :
    (u.set_password p).check_password p = true ∧
    (p ≠ q → (u.set_password p).check_password q = false) := by
  constructor
  · simp [User.set_password, User.check_password, check_password_hash]
  · intro hne
    simp only [User.set_password, User.check_password, check_password_hash,
      generate_password_hash]
    refine beq_eq_false_iff_ne.mpr (fun h => hne ?_)
    have hd := congrArg String.data h
    rw [String.data_append, String.data_append] at hd
    exact String.ext (List.append_cancel_left hd)

/-- Witness for **C7**: the plaintext `sekret` verifies against its own
hash and `inne` does not. -/
theorem set_check_password_roundtrip_witness :
    (sampleUserA.set_password "sekret").check_password "sekret" = true ∧
    (sampleUserA.set_password "sekret").check_password "inne" = false :=
  ⟨(set_check_password_roundtrip sampleUserA "sekret" "inne").1,
   (set_check_password_roundtrip sampleUserA "sekret" "inne").2 (by decide)⟩

/-- **C8**: for every authenticated user the dashboard returns exactly
the workouts whose `user_id` is the current user's id — the filtered list
in stored order, no further filtering, reordering or pagination — and
membership in it is equivalent to being an owned stored workout. -/
theorem dashboard_owned_workouts (db : DB) (uid : Nat) :
    handleRequest db (some uid) .dashboard =
      ⟨db, some uid, some (.renderDashboard uid
        (db.workouts.filter (fun w => w.user_id == uid)))⟩ ∧
    ∀ w, w ∈ db.workouts.filter (fun w => w.user_id == uid) ↔
      w ∈ db.workouts ∧ w.user_id = uid := by
  refine ⟨rfl, fun w => ?_⟩
  simp [List.mem_filter]

/-- **C9**: every protected route (logout, dashboard, add_workout,
workout_history, view_workout) requested without a session identity
responds with the redirect to the login page, leaving the store and the
(absent) session untouched — no handler body runs. -/
theorem protected_routes_redirect (db : DB) (req : Request)
    (h : req.isProtected = true) :
    handleRequest db none req = ⟨db, none, some redirectToLogin⟩ := by
  cases req <;> first
    | rfl
    | exact absurd h (by simp [Request.isProtected])

/-- Witness for **C9**: an anonymous request for the dashboard on the
sample store is redirected to login. -/
theorem protected_routes_redirect_witness :
    Request.isProtected .dashboard = true ∧
    handleRequest sampleDB none .dashboard = ⟨sampleDB, none, some redirectToLogin⟩ :=
  ⟨by decide, protected_routes_redirect sampleDB .dashboard (by decide)⟩

/-- **C2**: on a validated add-workout submission whose non-blank rows
all have their parallel fields present and integer-parsable, the handler
succeeds; the persisted exercises are exactly one per non-blank name (in
order, blank and whitespace-only names skipped), and every one of them
references the id of the `Workout` created by the same request. With 3
rows whose middle name is blank, the filtered length — and hence the
number of persisted rows — is 2. -/
theorem add_workout_inserts_nonblank_rows (db : DB) (uid : Nat) (f : WorkoutForm)
    (names bodyParts setsL repsL : List String)
    (hv : workoutFormValidates f = true)
    (H : ∀ p ∈ names.enum, blank p.2 = false →
      (bodyParts[p.1]?).isSome = true ∧
      ((setsL[p.1]?).bind pyInt?).isSome = true ∧
      ((repsL[p.1]?).bind pyInt?).isSome = true) :
    ∃ exs,
      handleRequest db (some uid) (.addWorkout f names bodyParts setsL repsL) =
        ⟨{ db.afterWorkoutCommit uid f with
            exercises := db.exercises ++ exs,
            nextExerciseId := db.nextExerciseId + exs.length },
          some uid,
          some (.redirect "dashboard" (some ⟨"Trening dodany!", "success"⟩))⟩ ∧
      exs.map Exercise.name = names.filter (fun n => !blank n) ∧
      exs.length = (names.filter (fun n => !blank n)).length ∧
      ∀ e ∈ exs, e.workout_id = (newWorkout db uid f).id := by
  obtain ⟨exs, hexs⟩ :=
    buildExercises_ok_of_rows (newWorkout db uid f).id names.enum
      db.nextExerciseId H
  have hshape := (buildExercises_rows_of_ok names.enum _ exs hexs).1
  have hmap : exs.map Exercise.name = names.filter (fun n => !blank n) := by
    rw [hshape.1]
    exact enum_filter_map_snd (fun n => !blank n) names
  refine ⟨exs, ?_, hmap, ?_, hshape.2⟩
  · simp only [handleRequest, add_workout, DB.afterWorkoutCommit, hv, if_true, hexs]
  · rw [← hmap, List.length_map]

/-- Witness for **C2**: three rows with the middle name whitespace-only;
exactly 2 exercises persist, both referencing the new workout. -/
theorem add_workout_inserts_nonblank_rows_witness :
    ∃ exs,
      handleRequest sampleDB (some 1)
          (.addWorkout ⟨"2024-05-02", "09:00", "45", "notatka"⟩
            ["Przysiad", "   ", "Martwy ciag"] ["nogi", "", "plecy"]
            ["3", "", "4"] ["10", "", "8"]) =
        ⟨{ sampleDB.afterWorkoutCommit 1 ⟨"2024-05-02", "09:00", "45", "notatka"⟩ with
            exercises := sampleDB.exercises ++ exs,
            nextExerciseId := sampleDB.nextExerciseId + exs.length },
          some 1,
          some (.redirect "dashboard" (some ⟨"Trening dodany!", "success"⟩))⟩ ∧
      exs.map Exercise.name =
        (["Przysiad", "   ", "Martwy ciag"] : List String).filter (fun n => !blank n) ∧
      exs.length = 2 ∧
      ∀ e ∈ exs, e.workout_id =
        (newWorkout sampleDB 1 ⟨"2024-05-02", "09:00", "45", "notatka"⟩).id := by
  obtain ⟨exs, h1, h2, h3, h4⟩ :=
    add_workout_inserts_nonblank_rows sampleDB 1
      ⟨"2024-05-02", "09:00", "45", "notatka"⟩
      ["Przysiad", "   ", "Martwy ciag"] ["nogi", "", "plecy"]
      ["3", "", "4"] ["10", "", "8"] (by decide) (by decide)
  exact ⟨exs, h1, h2, h3.trans (by decide), h4⟩

/-- **C6**: a validated add-workout submission with a non-blank name at
position `i` whose sets or reps value exists but is not a well-formed
integer makes the exercise loop raise: the request aborts (`none`
response) and the store persisted is exactly the first-phase commit — the
new `Workout` row is in, and no exercise row was added. -/
theorem add_workout_malformed_int_aborts (db : DB) (uid : Nat) (f : WorkoutForm)
    (names bodyParts setsL repsL : List String)
    (hv : workoutFormValidates f = true)
    (i : Nat) (hi : i < names.length) (hnb : blank (names.get ⟨i, hi⟩) = false)
    (hbad : (∃ s, setsL[i]? = some s ∧ pyInt? s = none) ∨
      (∃ s, repsL[i]? = some s ∧ pyInt? s = none)) :
    handleRequest db (some uid) (.addWorkout f names bodyParts setsL repsL) =
      ⟨db.afterWorkoutCommit uid f, some uid, none⟩ := by
  have hlen : i < names.enum.length := by simpa [List.enum_length] using hi
  have hmem : (i, names.get ⟨i, hi⟩) ∈ names.enum := by
    have h1 : names.enum[i] ∈ names.enum := List.getElem_mem hlen
    simpa [List.getElem_enum, List.get_eq_getElem] using h1
  have hfail : (bodyParts[i]?).isSome = false ∨
      ((setsL[i]?).bind pyInt?).isSome = false ∨
      ((repsL[i]?).bind pyInt?).isSome = false := by
    rcases hbad with ⟨s, hs, hp⟩ | ⟨s, hs, hp⟩
    · exact Or.inr (Or.inl (by rw [hs]; simp [hp]))
    · exact Or.inr (Or.inr (by rw [hs]; simp [hp]))
  have herr := buildExercises_error_of_badRow (newWorkout db uid f).id hmem hnb hfail
  simp only [handleRequest, add_workout, hv, if_true, herr]

/-- Witness for **C6**: one row named `Wioslowanie` with sets `trzy`;
the request aborts with the workout committed and no exercise. -/
theorem add_workout_malformed_int_aborts_witness :
    handleRequest sampleDB (some 1)
        (.addWorkout ⟨"2024-05-03", "08:00", "30", ""⟩
          ["Wioslowanie"] ["plecy"] ["trzy"] ["10"]) =
      ⟨sampleDB.afterWorkoutCommit 1 ⟨"2024-05-03", "08:00", "30", ""⟩,
        some 1, none⟩ :=
  add_workout_malformed_int_aborts sampleDB 1 ⟨"2024-05-03", "08:00", "30", ""⟩
    ["Wioslowanie"] ["plecy"] ["trzy"] ["10"] (by decide) 0 (by decide)
    (by decide) (Or.inl ⟨"trzy", by decide, by decide⟩)

/-- **C10** (implicit): the exercise loop indexes the four parallel lists
by the index range of the names list alone; a non-blank name at position
`i` where one of the other three lists has length at most `i` raises an
uncaught out-of-range error: the request aborts (`none` response) after
the first-phase commit, so the new `Workout` row persists with no
exercise rows. -/
theorem add_workout_short_parallel_lists_abort (db : DB) (uid : Nat) (f : WorkoutForm)
    (names bodyParts setsL repsL : List String)
    (hv : workoutFormValidates f = true)
    (i : Nat) (hi : i < names.length) (hnb : blank (names.get ⟨i, hi⟩) = false)
    (hshort : bodyParts.length ≤ i ∨ setsL.length ≤ i ∨ repsL.length ≤ i) :
    handleRequest db (some uid) (.addWorkout f names bodyParts setsL repsL) =
      ⟨db.afterWorkoutCommit uid f, some uid, none⟩ := by
  have hlen : i < names.enum.length := by simpa [List.enum_length] using hi
  have hmem : (i, names.get ⟨i, hi⟩) ∈ names.enum := by
    have h1 : names.enum[i] ∈ names.enum := List.getElem_mem hlen
    simpa [List.getElem_enum, List.get_eq_getElem] using h1
  have hfail : (bodyParts[i]?).isSome = false ∨
      ((setsL[i]?).bind pyInt?).isSome = false ∨
      ((repsL[i]?).bind pyInt?).isSome = false := by
    rcases hshort with h | h | h
    · exact Or.inl (by simp [List.getElem?_eq_none h])
    · exact Or.inr (Or.inl (by simp [List.getElem?_eq_none h]))
    · exact Or.inr (Or.inr (by simp [List.getElem?_eq_none h]))
  have herr := buildExercises_error_of_badRow (newWorkout db uid f).id hmem hnb hfail
  simp only [handleRequest, add_workout, hv, if_true, herr]

/-- Witness for **C10**: two named rows but a single-element body-part
list; the request aborts with the workout committed and no exercise. -/
theorem add_workout_short_parallel_lists_abort_witness :
    handleRequest sampleDB (some 1)
        (.addWorkout ⟨"2024-05-04", "07:30", "40", ""⟩
          ["Przysiad", "Wykroki"] ["nogi"] ["3", "3"] ["10", "10"]) =
      ⟨sampleDB.afterWorkoutCommit 1 ⟨"2024-05-04", "07:30", "40", ""⟩,
        some 1, none⟩ :=
  add_workout_short_parallel_lists_abort sampleDB 1 ⟨"2024-05-04", "07:30", "40", ""⟩
    ["Przysiad", "Wykroki"] ["nogi"] ["3", "3"] ["10", "10"] (by decide) 1
    (by decide) (by decide) (Or.inl (by decide))

end Trenning
